import Mathlib

/-!
Verification of the doge-gpt desktop pet (`cocoa_pet.py`) against its
natural-language specification.  The Python runtime is shallowly embedded:
pure text processing becomes Lean functions on `List Char` / `String`,
the animation controller and the chat/lock orchestration become explicit
state-passing functions, and network calls become `Option`-valued inputs
(`none` = the call raised).
-/

namespace DogeGpt

/-! ## Character-level text helpers (Python `str.strip`, `re` behaviour) -/

/-- Whitespace characters removed by Python `str.strip()` and matched by
regex `\s` (ASCII subset, which covers every string this program builds). -/
def isPySpace (c : Char) : Bool :=
  c = ' ' || c = '\t' || c = '\n' || c = '\r' || c = '\x0b' || c = '\x0c'

/-- `str.strip()` on a character list. -/
def pyStrip (l : List Char) : List Char :=
  ((l.dropWhile isPySpace).reverse.dropWhile isPySpace).reverse

/-- `str.strip()` on a `String`. -/
def pyStripS (s : String) : String :=
  String.mk (pyStrip s.data)

/-- ASCII lower-casing of one character, as `re.I` effectively folds the
characters appearing in this program's patterns. -/
def lcChar (c : Char) : Char :=
  if 'A' ≤ c ∧ c ≤ 'Z' then Char.ofNat (c.toNat + 32) else c

/-- Lower-case a character list. -/
def lcList (l : List Char) : List Char := l.map lcChar

/-- Regex word character `\w` (ASCII): letters, digits, underscore. -/
def isWordChar (c : Char) : Bool :=
  ('a' ≤ c && c ≤ 'z') || ('A' ≤ c && c ≤ 'Z') || ('0' ≤ c && c ≤ '9') || c = '_'

/-- Uppercase ASCII letter, regex class `[A-Z]`. -/
def isUpperAZ (c : Char) : Bool := 'A' ≤ c && c ≤ 'Z'

/-! ## Mood-tag parsing (`ask_gpt_and_respond`, lines 494-496)

`re.search(r"<mood:([A-Z]+)>", answer)` captures the first run of uppercase
letters wrapped in a `<mood:...>` tag anywhere in the reply;
`re.sub(r"<mood:[A-Z]+>", "", answer).strip()` erases every such tag. -/

/-- Try to match `<mood:[A-Z]+>` at the head of `l`.  On success return the
captured uppercase run and the characters after the closing `>`.  Regex
backtracking over the greedy `[A-Z]+` succeeds exactly when the maximal
uppercase run after `<mood:` is nonempty and followed by `>`. -/
def moodAt (l : List Char) : Option (List Char × List Char) :=
  if List.isPrefixOf ("<mood:".data) l then
    let rest := l.drop 6
    let run := rest.takeWhile isUpperAZ
    if run = [] then none
    else
      match rest.drop run.length with
      | '>' :: tail => some (run, tail)
      | _ => none
  else none

/-- `re.search`: first `<mood:[A-Z]+>` capture group, scanning left to right. -/
def findMood : List Char → Option (List Char)
  | [] => none
  | c :: rest =>
    match moodAt (c :: rest) with
    | some (run, _) => some run
    | none => findMood rest

/-- `re.sub` worker with explicit fuel; each step consumes at least one
character, so fuel `l.length` always suffices. -/
def subMoodF : Nat → List Char → List Char
  | 0, l => l
  | _ + 1, [] => []
  | fuel + 1, c :: rest =>
    match moodAt (c :: rest) with
    | some (_, tail) => subMoodF fuel tail
    | none => c :: subMoodF fuel rest

/-- `re.sub(r"<mood:[A-Z]+>", "", l)`: erase every mood tag. -/
def subMood (l : List Char) : List Char := subMoodF l.length l

/-- Lines 494-496 of `cocoa_pet.py`: extract the mood (default `"HAPPY"`
when no tag matches) and the displayed text (tags erased, then stripped).
The input is the completion reply after the `.strip()` of line 492. -/
def parse_mood (answer : String) : String × String :=
  let l := answer.data
  let mood :=
    match findMood l with
    | some run => String.mk run
    | none => "HAPPY"
  (mood, String.mk (pyStrip (subMood l)))

/-! ## Price-intent detection (`ask_gpt_and_respond`, lines 423-428)

`re.search(r"(doge\s*coin|dogecoin)", msg, re.I)` and
`re.search(r"\b(price|worth|value|market|doing|performance|up|down|trend)\b",
msg, re.I)`; the intent flag is set only when both match. -/

/-- Match `doge\s*coin` at the head of an (already lower-cased) list:
`"doge"` then any run of whitespace then `"coin"`.  The alternative
`dogecoin` of the source pattern is the zero-whitespace case. -/
def coinAt (l : List Char) : Bool :=
  List.isPrefixOf ("doge".data) l &&
    List.isPrefixOf ("coin".data) ((l.drop 4).dropWhile isPySpace)

/-- `re.search` of the coin pattern: try every start position. -/
def coinSearch : List Char → Bool
  | [] => false
  | c :: rest => coinAt (c :: rest) || coinSearch rest

/-- The market/performance vocabulary of the intent regex (lower-cased). -/
def vocabWords : List (List Char) :=
  ["price", "worth", "value", "market", "doing", "performance",
   "up", "down", "trend"].map String.data

/-- Match `\bword\b` at the current position: the word is a list head and
both neighbours (previous character `prev`, character after the word) are
not word characters. -/
def wordAt (prev : Option Char) (w : List Char) (l : List Char) : Bool :=
  (match prev with
   | some c => !isWordChar c
   | none => true) &&
  List.isPrefixOf w l &&
  (match (l.drop w.length).head? with
   | some c => !isWordChar c
   | none => true)

/-- Some vocabulary word matches with word boundaries at this position. -/
def vocabAt (prev : Option Char) (l : List Char) : Bool :=
  vocabWords.any (fun w => wordAt prev w l)

/-- `re.search` of the vocabulary pattern, threading the previous character
for the left word boundary. -/
def vocabSearchAux (prev : Option Char) : List Char → Bool
  | [] => vocabAt prev []
  | c :: rest => vocabAt prev (c :: rest) || vocabSearchAux (some c) rest

/-- Vocabulary search from the start of the text. -/
def vocabSearch (l : List Char) : Bool := vocabSearchAux none l

/-- Lines 423-428: `price_intent` starts `False` and becomes `True` only
when the coin pattern matches and then the vocabulary pattern matches
(both case-insensitive, modelled by lower-casing the text first). -/
def price_intent (user_msg : String) : Bool :=
  let l := lcList user_msg.data
  if coinSearch l then
    if vocabSearch l then true else false
  else false

/-! ## Animation controller (`PetDelegate.set_animation`, lines 582-629)

Frames are abstracted to `Nat` identifiers; the asset source is a function
from file name to the list of frames it yields (`[]` = file missing or no
frame decodes, the two early-return paths of lines 595-596 / 610-611).
`NSTimer` one-shot timers scheduled by line 619 are kept as the list of
their absolute fire times: assigning `self._revert_timer` never calls
`invalidate()`, so a previously scheduled timer stays pending in the run
loop even after the attribute is overwritten. -/

/-- `PetDelegate.ANIMATIONS` (lines 582-589). -/
def ANIMATIONS : List (String × String) :=
  [("idle", "3d-doge-spins-like-coin-idle.gif"),
   ("happy", "doge-dances-full-body.gif"),
   ("laugh", "doge-laughs.gif"),
   ("wow", "doge-appears-disappears.gif"),
   ("sad", "doge-shaking-head-in-circles.gif"),
   ("thinking", "doge-in-waves-loading-glitching.gif")]

/-- `self.ANIMATIONS.get(key, self.ANIMATIONS["idle"])` (line 593). -/
def animFile (key : String) : String :=
  (ANIMATIONS.lookup key).getD ((ANIMATIONS.lookup "idle").getD "")

/-- Animation-relevant state of `PetDelegate`. -/
structure AnimState where
  framesKey : String
  frames : List Nat
  frame_idx : Nat
  /-- Absolute fire times of all pending one-shot revert timers. -/
  revertTimers : List Nat
  deriving DecidableEq, Repr

/-- `PetDelegate.set_animation` (lines 591-625), at clock time `now`:
resolve the key to a file name, load it (keeping the current state when
nothing loads), reset the frame index, and for keys other than `"idle"`
and `"thinking"` schedule one more revert timer for `now + 6`. -/
def set_animation (assets : String → List Nat) (now : Nat)
    (st : AnimState) (key : String) : AnimState :=
  let fname := animFile key
  let frames := assets fname
  if frames = [] then st
  else
    let st1 : AnimState :=
      { framesKey := fname, frames := frames, frame_idx := 0,
        revertTimers := st.revertTimers }
    if key = "idle" ∨ key = "thinking" then st1
    else { st1 with revertTimers := st1.revertTimers ++ [now + 6] }

/-- The earliest pending revert timer fires: the run loop removes the
one-shot timer and its selector `revertToIdle_` calls
`set_animation("idle")` (lines 628-629). -/
def fireRevert (assets : String → List Nat) (st : AnimState) : AnimState :=
  match st.revertTimers with
  | [] => st
  | t :: rest => set_animation assets t { st with revertTimers := rest } "idle"

/-! ## Price cache (`PetDelegate._ensure_price_snippet`, lines 632-659) -/

/-- `self._price_cache` (line 341). -/
structure PriceCache where
  ts : Nat
  snippet : String
  deriving DecidableEq, Repr

/-- One entry of the CoinGecko markets response; the two fields the code
reads.  Prices are abstract: the snippet text is produced by a formatting
function passed in, since only presence/absence matters to the cache
logic. -/
structure Coin where
  current_price : Option Int
  change24 : Option Int
  deriving DecidableEq, Repr

/-- `PetDelegate._ensure_price_snippet` (lines 632-659).  `fetch` is the
outcome of the HTTP call: `none` when the request or JSON decoding raises
or the body is not a list, `some coins` otherwise.  `fmt` renders the
f-string of lines 651-654.  Returns the snippet together with the updated
cache. -/
def ensure_price_snippet (fmt : Int → Option Int → String)
    (fetch : Option (List Coin)) (now : Nat) (force_fetch : Bool)
    (c : PriceCache) : String × PriceCache :=
  if ¬force_fetch ∧ now - c.ts < 3600 then (c.snippet, c)
  else
    match fetch with
    | none => ("", c)
    | some data =>
      match data.head? with
      | none => ("", c)
      | some coin =>
        match coin.current_price with
        | none => ("", c)
        | some p =>
          let snippet := fmt p coin.change24
          (snippet, { ts := now, snippet := snippet })

/-! ## Chat history (`show_chat` lines 371-375, `ask_gpt_and_respond`
lines 500-503) -/

/-- One `{"role": ..., "content": ...}` history entry (line 333). -/
structure Msg where
  role : String
  content : String
  deriving DecidableEq, Repr

/-- `self._max_history` (line 335). -/
def max_history : Nat := 12

/-- Append one message and trim, the pattern used for both the user append
(lines 372-375) and the assistant append (lines 501-503):
`history.append(m)` then `history = history[-max_history:]` when the length
exceeds the cap. -/
def appendTrim (h : List Msg) (m : Msg) : List Msg :=
  let h2 := h ++ [m]
  if h2.length > max_history then h2.drop (h2.length - max_history) else h2

/-! ## Orchestrator state machine

The lock / input-bubble / background-thread choreography of `show_chat`
(lines 354-389), `InputBubble.send_` (lines 223-230) and
`ask_gpt_and_respond` (lines 391-525), flattened to a step function over
the externally visible events.  Enrichment (search snippet, price snippet)
does not touch the lock or the bubbles and is elided here; it is modelled
separately by `price_intent` and `ensure_price_snippet`. -/

/-- Process-level state: the pieces of `PetDelegate` that the single-flight
protocol touches.  `inputCreated` counts `InputBubble` allocations (an
observer, not program state). -/
structure Sys where
  /-- whether `OPENAI_API_KEY` is available (env var or saved key). -/
  hasKey : Bool
  /-- `self._chat_lock` held? -/
  lockHeld : Bool
  /-- `self._input_bubble` is a live window. -/
  inputBubble : Bool
  /-- a background `ask_gpt_and_respond` thread is in flight. -/
  pendingRequest : Bool
  /-- `self._chat_history`. -/
  history : List Msg
  /-- number of live `ChatBubble`s in `self._bubbles`. -/
  chatBubbles : Nat
  /-- total `InputBubble`s ever created. -/
  inputCreated : Nat
  deriving DecidableEq, Repr

/-- Events driving the conversation protocol.  `showChat` carries the
outcome the credential prompt would have (`promptOk`); `submit` is the
text field content when Send fires; `completion` is the result of the
`openai.chat.completions.create` call — `none` when it raises. -/
inductive Ev where
  | showChat (promptOk : Bool)
  | submit (text : String)
  | completion (reply : Option String)
  deriving DecidableEq, Repr

/-- The body of `show_chat` after the credential check (lines 362-389):
non-blocking acquire, early return when held, otherwise create the
`InputBubble`. -/
def show_chat_locked (sys : Sys) : Sys :=
  if sys.lockHeld then sys
  else
    { sys with lockHeld := true, inputBubble := true,
               inputCreated := sys.inputCreated + 1 }

/-- `PetDelegate.show_chat` (lines 354-389): when no key is present, the
prompt runs first; cancellation returns with no other effect, success
stores the key; then the lock guard and bubble creation. -/
def show_chat (promptOk : Bool) (sys : Sys) : Sys :=
  if sys.hasKey then show_chat_locked sys
  else if promptOk then show_chat_locked { sys with hasKey := true }
  else sys

/-- `InputBubble.send_` (lines 223-230): strip the field text; invoke the
`respond` callback (lines 368-382: append the user message, trim, start
the background thread) only when the stripped text is nonempty; in every
case clear `owner._input_bubble` and close the window. -/
def send_fires (text : String) (sys : Sys) : Sys :=
  let t := pyStripS text
  if t ≠ "" then
    { sys with history := appendTrim sys.history ⟨"user", t⟩,
               pendingRequest := true, inputBubble := false }
  else { sys with inputBubble := false }

/-- Tail of `ask_gpt_and_respond` from the completion call (line 488)
onwards.  `none`: the call raised; the exception propagates out of the
background thread before anything below line 491 runs — no history
append, no `_finish` block, no lock release.  `some raw`: line 492 strips
the reply, lines 494-496 parse the mood, lines 501-503 append and trim,
and the `_finish` block (lines 508-518) creates a `ChatBubble` and
releases `self._chat_lock`; line 525 clears `self._input_bubble`. -/
def completion_returns (reply : Option String) (sys : Sys) : Sys :=
  match reply with
  | none => { sys with pendingRequest := false }
  | some raw =>
    let answer0 := pyStripS raw
    let ans := (parse_mood answer0).2
    { sys with pendingRequest := false,
               history := appendTrim sys.history ⟨"assistant", ans⟩,
               chatBubbles := sys.chatBubbles + 1,
               lockHeld := false, inputBubble := false }

/-- One protocol step. `submit` can only act through a live input bubble
and `completion` only through an in-flight background thread; otherwise
the event has no carrier and nothing happens. -/
def step (sys : Sys) (e : Ev) : Sys :=
  match e with
  | .showChat promptOk => show_chat promptOk sys
  | .submit text => if sys.inputBubble then send_fires text sys else sys
  | .completion reply =>
    if sys.pendingRequest then completion_returns reply sys else sys

/-- Run a list of events. -/
def runEvents (sys : Sys) (evs : List Ev) : Sys := evs.foldl step sys

/-! ## Bubble geometry (`reposition_bubbles` lines 544-570,
`PriceBubble.initWithParent_message_` lines 735-741)

Coordinates are rationals (Python floats carry no rounding on these
values).  `reposition_bubbles` iterates over `self._bubbles` — which holds
`ChatBubble`s *and* `PriceBubble`s (line 672 appends price bubbles to the
same list) — applying one formula to each entry, and then the same formula
to the live input bubble. -/

/-- Bubble kinds of the spec's data model. -/
inductive BubbleKind where
  | chat
  | input
  | price
  deriving DecidableEq, Repr

/-- A registered bubble: its kind and its stored `self.size`. -/
structure Bubble where
  kind : BubbleKind
  w : ℚ
  h : ℚ
  deriving DecidableEq, Repr

/-- The anchor (pet) window frame. -/
structure Frame where
  x : ℚ
  y : ℚ
  w : ℚ
  h : ℚ
  deriving DecidableEq, Repr

/-- The position formula of the reposition pass (lines 556-559 and
567-570): horizontally centred above the anchor with a 10-point gap,
applied to every entry of `self._bubbles` and to the input bubble —
the bubble's kind is never consulted. -/
def reposition_pos (pet : Frame) (b : Bubble) : ℚ × ℚ :=
  (pet.x + (pet.w - b.w) / 2, pet.y + pet.h + 10)

/-- `PetDelegate.reposition_bubbles` on the registry (all windows live). -/
def reposition_bubbles (pet : Frame) (bubbles : List Bubble) :
    List (ℚ × ℚ) :=
  bubbles.map (reposition_pos pet)

/-- `PriceBubble.initWithParent_message_` placement (lines 736-741): to the
right of the anchor with a 10-point gap, vertically centred. -/
def price_bubble_init_pos (pet : Frame) (w h : ℚ) : ℚ × ℚ :=
  (pet.x + pet.w + 10, pet.y + (pet.h - h) / 2)

/-- Modelled from the spec: the kind-specific reposition rule of §4.2 —
Chat/Input bubbles horizontally centred above the anchor with a fixed
vertical gap, Price bubbles to the right of the anchor, vertically
centred.  Stated for comparison with `reposition_pos`, the rule the code
actually applies. -/
def spec_reposition_pos (pet : Frame) (b : Bubble) : ℚ × ℚ :=
  match b.kind with
  | .price => (pet.x + pet.w + 10, pet.y + (pet.h - b.h) / 2)
  | _ => (pet.x + (pet.w - b.w) / 2, pet.y + pet.h + 10)

/-! ## Helper lemmas -/

/-- When `re.search` finds no mood tag, no position matches. -/
theorem findMood_cons_none {c : Char} {rest : List Char}
    (h : findMood (c :: rest) = none) :
    moodAt (c :: rest) = none ∧ findMood rest = none := by
  cases hm : moodAt (c :: rest) with
  | some p =>
    obtain ⟨run, tail⟩ := p
    rw [findMood, hm] at h
    exact absurd h (by simp)
  | none =>
    rw [findMood, hm] at h
    exact ⟨rfl, h⟩

/-- `re.sub` of a pattern that occurs nowhere is the identity. -/
theorem subMoodF_of_none : ∀ (fuel : Nat) (l : List Char),
    findMood l = none → subMoodF fuel l = l := by
  intro fuel
  induction fuel with
  | zero => intro l _; rfl
  | succ n ih =>
    intro l h
    cases l with
    | nil => rfl
    | cons c rest =>
      obtain ⟨hm, hr⟩ := findMood_cons_none h
      rw [subMoodF, hm]
      exact congrArg (c :: ·) (ih rest hr)

/-- `subMood` leaves a tag-free reply unmodified. -/
theorem subMood_of_none {l : List Char} (h : findMood l = none) :
    subMood l = l :=
  subMoodF_of_none l.length l h

/-! ## C3 — mood-tag parsing -/

/-- C3, counterexample: the regex `<mood:([A-Z]+)>` captures *any*
uppercase run, so the unrecognized tag `ANGRY` — outside the vocabulary
{HAPPY, LAUGH, WOW, SAD, THINK} — becomes the mood verbatim instead of
defaulting to HAPPY as the claim states. -/
theorem parse_mood_claim_cex :
    (parse_mood "Hi <mood:ANGRY>").1 = "ANGRY" ∧
    (parse_mood "Hi <mood:ANGRY>").1 ≠ "HAPPY" ∧
    "ANGRY" ∉ ["HAPPY", "LAUGH", "WOW", "SAD", "THINK"] := by
  decide

/-- C3 (amended): the pipeline captures the first `<mood:[A-Z]+>` tag of
the reply (any uppercase run, not only the fixed vocabulary), strips every
such tag from the displayed text, and yields mood HAPPY exactly when no
tag matches; `"Great! <mood:HAPPY>"` displays `"Great!"` with mood HAPPY,
and a reply with no tag is displayed unmodified (up to the final strip)
with mood HAPPY. -/
theorem parse_mood_amended :
    parse_mood "Great! <mood:HAPPY>" = ("HAPPY", "Great!") ∧
    parse_mood "Hi there" = ("HAPPY", "Hi there") ∧
    parse_mood "Hi <mood:ANGRY>" = ("ANGRY", "Hi") ∧
    ∀ s : String, findMood s.data = none →
      parse_mood s = ("HAPPY", String.mk (pyStrip s.data)) := by
  refine ⟨by decide, by decide, by decide, ?_⟩
  intro s h
  simp [parse_mood, h, subMood_of_none h]

/-- Witness for `parse_mood_amended` at the tag-free reply `"Hi there"`. -/
theorem parse_mood_amended_witness :
    findMood ("Hi there" : String).data = none ∧
    parse_mood "Hi there" = ("HAPPY", String.mk (pyStrip ("Hi there" : String).data)) :=
  ⟨by decide, parse_mood_amended.2.2.2 "Hi there" (by decide)⟩

/-! ## C7 — price-intent detection -/

/-- C7: price intent is the conjunction of the case-insensitive coin
pattern and the case-insensitive market/performance vocabulary pattern;
`"how is dogecoin doing today"` satisfies it and `"what is dogecoin"` does
not (a mixed-case phrasing with `doge coin` split also passes). -/
theorem price_intent_lexical_test :
    (∀ s : String, price_intent s =
        (coinSearch (lcList s.data) && vocabSearch (lcList s.data))) ∧
    price_intent "how is dogecoin doing today" = true ∧
    price_intent "what is dogecoin" = false ∧
    price_intent "How is DOGE Coin doing today?" = true := by
  refine ⟨?_, by decide, by decide, by decide⟩
  intro s
  unfold price_intent
  cases hc : coinSearch (lcList s.data) <;>
    cases hv : vocabSearch (lcList s.data) <;> simp [hc, hv]

/-! ## C8 — bounded chat history -/

/-- C8: the cap is 12; after every append-and-trim the history length is
at most the cap; and a history that starts empty and receives 13 appended
messages retains exactly the most recent 12 in original order. -/
theorem history_cap_invariant :
    max_history = 12 ∧
    (∀ (h : List Msg) (m : Msg), (appendTrim h m).length ≤ max_history) ∧
    (∀ m1 m2 m3 m4 m5 m6 m7 m8 m9 m10 m11 m12 m13 : Msg,
      List.foldl appendTrim []
          [m1, m2, m3, m4, m5, m6, m7, m8, m9, m10, m11, m12, m13] =
        [m2, m3, m4, m5, m6, m7, m8, m9, m10, m11, m12, m13]) := by
  refine ⟨rfl, ?_, ?_⟩
  · intro h m
    unfold appendTrim
    by_cases hl : (h ++ [m]).length > max_history
    · simp only [hl, if_pos, List.length_drop]
      omega
    · simp only [hl, if_neg, not_false_iff]
      omega
  · intro m1 m2 m3 m4 m5 m6 m7 m8 m9 m10 m11 m12 m13
    norm_num [List.foldl, appendTrim, max_history]

/-! ## C6 — price cache after a failed refresh -/

/-- C6, counterexample: with a stale cache (`ts = 0`, snippet `"old"`),
`force_fetch = false`, clock `4000` (TTL expired) and a failing fetch, the
call returns the empty string, not the previously cached snippet `"old"`
— the cache itself is left untouched. -/
theorem price_refresh_failure_cex :
    ensure_price_snippet (fun _ _ => "") none 4000 false ⟨0, "old"⟩ =
      ("", ⟨0, "old"⟩) ∧
    ("" : String) ≠ "old" := by
  decide

/-- C6 (amended): when `get(false)` runs after TTL expiry and the refresh
fetch fails, the cached snapshot is left untouched, but the call returns
the empty string (the "unavailable now" sentinel), not the previously
cached snippet. -/
theorem price_refresh_failure_amended (fmt : Int → Option Int → String)
    (c : PriceCache) (now : Nat) (hTTL : 3600 ≤ now - c.ts) :
    ensure_price_snippet fmt none now false c = ("", c) := by
  unfold ensure_price_snippet
  have hfresh : ¬ (now - c.ts < 3600) := by omega
  simp [hfresh]

/-- Witness for `price_refresh_failure_amended` at a concrete stale
cache. -/
theorem price_refresh_failure_witness :
    3600 ≤ 4000 - (⟨0, "old"⟩ : PriceCache).ts ∧
    ensure_price_snippet (fun _ _ => "old price") none 4000 false ⟨0, "old"⟩ =
      ("", ⟨0, "old"⟩) :=
  ⟨by decide,
   price_refresh_failure_amended (fun _ _ => "old price") ⟨0, "old"⟩ 4000
     (by decide)⟩

/-! ## C5 — bubble repositioning rules -/

/-- C5, counterexample: the reposition pass applies the centred-above rule
to a registered Price bubble (size 200×60, anchor at the origin with size
128×128), yielding `(-36, 138)`, not the kind-specific right-of-anchor
position `(138, 34)` the claim states. -/
theorem reposition_price_bubble_cex :
    reposition_bubbles ⟨0, 0, 128, 128⟩ [⟨BubbleKind.price, 200, 60⟩] =
      [(-36, 138)] ∧
    spec_reposition_pos ⟨0, 0, 128, 128⟩ ⟨BubbleKind.price, 200, 60⟩ =
      (138, 34) ∧
    ((-36 : ℚ), (138 : ℚ)) ≠ ((138 : ℚ), (34 : ℚ)) := by
  refine ⟨?_, ?_, by norm_num⟩ <;>
    simp [reposition_bubbles, reposition_pos, spec_reposition_pos] <;>
    norm_num

/-- C5 (amended): the reposition pass positions every registered bubble —
Chat, Input and Price alike — horizontally centred above the anchor with a
fixed 10-point gap; it agrees with the spec's kind-specific rule exactly
on the non-Price kinds, and the right-of-anchor vertically-centred
placement for Price bubbles is applied only once, when the bubble is
created. -/
theorem reposition_rules_amended :
    (∀ (pet : Frame) (bubbles : List Bubble),
      reposition_bubbles pet bubbles =
        bubbles.map (fun b => (pet.x + (pet.w - b.w) / 2, pet.y + pet.h + 10))) ∧
    (∀ (pet : Frame) (b : Bubble), b.kind ≠ BubbleKind.price →
      reposition_pos pet b = spec_reposition_pos pet b) ∧
    (∀ (pet : Frame) (w h : ℚ),
      price_bubble_init_pos pet w h =
        (pet.x + pet.w + 10, pet.y + (pet.h - h) / 2)) := by
  refine ⟨fun pet bubbles => rfl, ?_, fun pet w h => rfl⟩
  intro pet b hk
  cases hb : b.kind with
  | price => exact absurd hb hk
  | chat => simp [reposition_pos, spec_reposition_pos, hb]
  | input => simp [reposition_pos, spec_reposition_pos, hb]

/-- Witness for `reposition_rules_amended` at a concrete Chat bubble. -/
theorem reposition_rules_witness :
    (⟨BubbleKind.chat, 220, 100⟩ : Bubble).kind ≠ BubbleKind.price ∧
    reposition_pos ⟨0, 0, 128, 128⟩ ⟨BubbleKind.chat, 220, 100⟩ =
      spec_reposition_pos ⟨0, 0, 128, 128⟩ ⟨BubbleKind.chat, 220, 100⟩ :=
  ⟨by decide,
   reposition_rules_amended.2.1 ⟨0, 0, 128, 128⟩ ⟨BubbleKind.chat, 220, 100⟩
     (by decide)⟩

/-! ## C1 — revert timers are never cancelled -/

/-- An asset source with every GIF present and one decodable frame. -/
def allAssets : String → List Nat := fun _ => [0]

/-- The launch-time animation state: idle frames, no pending timer. -/
def animInit : AnimState :=
  ⟨"3d-doge-spins-like-coin-idle.gif", [0], 0, []⟩

/-- C1, counterexample: `set_animation("happy")` at time 0 followed by
`set_animation("wow")` at time 1 leaves *two* pending revert timers
(firing at 6 and 7) — refuting "at most one pending revert timer exists at
any moment" — and when the first timer fires, the superseded transition's
stale revert switches the current `"wow"` animation back to Idle. -/
theorem set_animation_stale_revert_cex :
    (set_animation allAssets 1
        (set_animation allAssets 0 animInit "happy") "wow").revertTimers =
      [6, 7] ∧
    (set_animation allAssets 1
        (set_animation allAssets 0 animInit "happy") "wow").framesKey =
      "doge-appears-disappears.gif" ∧
    (fireRevert allAssets
        (set_animation allAssets 1
          (set_animation allAssets 0 animInit "happy") "wow")).framesKey =
      "3d-doge-spins-like-coin-idle.gif" ∧
    (fireRevert allAssets
        (set_animation allAssets 1
          (set_animation allAssets 0 animInit "happy") "wow")).revertTimers =
      [7] := by
  decide

/-- C1 (amended): for a transient key whose asset loads, `set_animation`
arms exactly one *new* 6-second revert timer but never cancels a
previously armed one: the pending-timer list grows by one, so after a
second transient transition two reverts are pending and the superseded
transition's revert still fires, switching the newer animation back to
Idle. -/
theorem set_animation_arms_uncancelled_revert
    (assets : String → List Nat) (now : Nat) (st : AnimState) (key : String)
    (hload : assets (animFile key) ≠ [])
    (h1 : key ≠ "idle") (h2 : key ≠ "thinking") :
    (set_animation assets now st key).revertTimers =
      st.revertTimers ++ [now + 6] ∧
    (set_animation assets now st key).framesKey = animFile key ∧
    (set_animation assets now st key).frame_idx = 0 := by
  unfold set_animation
  simp [hload, h1, h2]

/-- Witness for `set_animation_arms_uncancelled_revert` at key `"happy"`
from the launch state. -/
theorem set_animation_revert_witness :
    (allAssets (animFile "happy") ≠ [] ∧
      ("happy" : String) ≠ "idle" ∧ ("happy" : String) ≠ "thinking") ∧
    ((set_animation allAssets 0 animInit "happy").revertTimers =
        animInit.revertTimers ++ [0 + 6] ∧
      (set_animation allAssets 0 animInit "happy").framesKey =
        animFile "happy" ∧
      (set_animation allAssets 0 animInit "happy").frame_idx = 0) :=
  ⟨⟨by decide, by decide, by decide⟩,
   set_animation_arms_uncancelled_revert allAssets 0 animInit "happy"
     (by decide) (by decide) (by decide)⟩

/-! ## C10 — unknown animation keys fall back to Idle with a timer -/

/-- A key outside the `ANIMATIONS` table resolves to the Idle GIF. -/
theorem animFile_unknown (key : String)
    (h : key ∉ ["idle", "happy", "laugh", "wow", "sad", "thinking"]) :
    animFile key = "3d-doge-spins-like-coin-idle.gif" := by
  simp only [List.mem_cons, List.not_mem_nil, or_false, not_or] at h
  obtain ⟨h1, h2, h3, h4, h5, h6⟩ := h
  have e1 : (key == "idle") = false := beq_eq_false_iff_ne.mpr h1
  have e2 : (key == "happy") = false := beq_eq_false_iff_ne.mpr h2
  have e3 : (key == "laugh") = false := beq_eq_false_iff_ne.mpr h3
  have e4 : (key == "wow") = false := beq_eq_false_iff_ne.mpr h4
  have e5 : (key == "sad") = false := beq_eq_false_iff_ne.mpr h5
  have e6 : (key == "thinking") = false := beq_eq_false_iff_ne.mpr h6
  simp [animFile, ANIMATIONS, List.lookup, e1, e2, e3, e4, e5, e6]

/-- C10: for any key outside the six known animation keys, `set_animation`
loads the Idle asset (not a no-op): the idle frames become current with
frame index 0, and — the key being neither `"idle"` nor `"thinking"` — a
6-second revert timer is still armed. -/
theorem unknown_key_falls_back_to_idle
    (assets : String → List Nat) (now : Nat) (st : AnimState) (key : String)
    (h : key ∉ ["idle", "happy", "laugh", "wow", "sad", "thinking"])
    (hload : assets "3d-doge-spins-like-coin-idle.gif" ≠ []) :
    (set_animation assets now st key).framesKey =
      "3d-doge-spins-like-coin-idle.gif" ∧
    (set_animation assets now st key).frames =
      assets "3d-doge-spins-like-coin-idle.gif" ∧
    (set_animation assets now st key).frame_idx = 0 ∧
    (set_animation assets now st key).revertTimers =
      st.revertTimers ++ [now + 6] := by
  have hf := animFile_unknown key h
  simp only [List.mem_cons, List.not_mem_nil, or_false, not_or] at h
  obtain ⟨h1, _, _, _, _, h6⟩ := h
  unfold set_animation
  rw [hf]
  simp [hload, h1, h6]

/-- Witness for `unknown_key_falls_back_to_idle` at key `"angry"`. -/
theorem unknown_key_witness :
    (("angry" : String) ∉ ["idle", "happy", "laugh", "wow", "sad", "thinking"] ∧
      allAssets "3d-doge-spins-like-coin-idle.gif" ≠ []) ∧
    ((set_animation allAssets 9 animInit "angry").framesKey =
        "3d-doge-spins-like-coin-idle.gif" ∧
      (set_animation allAssets 9 animInit "angry").frames =
        allAssets "3d-doge-spins-like-coin-idle.gif" ∧
      (set_animation allAssets 9 animInit "angry").frame_idx = 0 ∧
      (set_animation allAssets 9 animInit "angry").revertTimers =
        animInit.revertTimers ++ [9 + 6]) :=
  ⟨⟨by decide, by decide⟩,
   unknown_key_falls_back_to_idle allAssets 9 animInit "angry"
     (by decide) (by decide)⟩

/-! ## C4 — single-flight chat initiation -/

/-- A concrete post-launch state: key available, lock free, nothing
in flight. -/
def sysInit : Sys := ⟨true, false, false, false, [], 0, 0⟩

/-- C4: with a key available, an initiation attempted while the lock is
already held is silently dropped with no side effects (the state is
returned unchanged); and starting from a lock-free state, an initiation
acquires the lock and creates one Input bubble, after which a second (and
third) attempt is a no-op — exactly one Input bubble is created in
total. -/
theorem show_chat_single_flight :
    (∀ (promptOk : Bool) (sys : Sys), sys.hasKey = true →
      sys.lockHeld = true → show_chat promptOk sys = sys) ∧
    (∀ sys : Sys, sys.hasKey = true → sys.lockHeld = false →
      (show_chat true sys).inputCreated = sys.inputCreated + 1 ∧
      (show_chat true sys).lockHeld = true ∧
      (show_chat true sys).inputBubble = true ∧
      show_chat true (show_chat true sys) = show_chat true sys ∧
      (show_chat true (show_chat true (show_chat true sys))).inputCreated =
        sys.inputCreated + 1) := by
  constructor
  · intro promptOk sys hk hl
    simp [show_chat, show_chat_locked, hk, hl]
  · intro sys hk hl
    simp [show_chat, show_chat_locked, hk, hl]

/-- Witness for `show_chat_single_flight` at the launch state. -/
theorem show_chat_single_flight_witness :
    (sysInit.hasKey = true ∧ sysInit.lockHeld = false) ∧
    ((show_chat true sysInit).inputCreated = sysInit.inputCreated + 1 ∧
      (show_chat true sysInit).lockHeld = true ∧
      (show_chat true sysInit).inputBubble = true ∧
      show_chat true (show_chat true sysInit) = show_chat true sysInit ∧
      (show_chat true (show_chat true (show_chat true sysInit))).inputCreated =
        sysInit.inputCreated + 1) :=
  ⟨⟨rfl, rfl⟩, show_chat_single_flight.2 sysInit rfl rfl⟩

/-! ## Wedged states of the orchestrator -/

/-- A wedged state: key present, lock held, but no input bubble and no
background request — nothing in the program can ever release
`self._chat_lock` from here. -/
def Wedged (sys : Sys) : Prop :=
  sys.hasKey = true ∧ sys.lockHeld = true ∧
    sys.inputBubble = false ∧ sys.pendingRequest = false

/-- Every event leaves a wedged state unchanged: `show_chat` is dropped at
the lock guard, a submit has no live input bubble to come from, and a
completion has no in-flight thread to come from. -/
theorem step_of_wedged {sys : Sys} (h : Wedged sys) (e : Ev) :
    step sys e = sys := by
  obtain ⟨hk, hl, hi, hp⟩ := h
  cases e with
  | showChat promptOk => simp [step, show_chat, show_chat_locked, hk, hl]
  | submit text => simp [step, hi]
  | completion reply => simp [step, hp]

/-- A wedged state is a fixed point of any event sequence. -/
theorem runEvents_of_wedged {sys : Sys} (h : Wedged sys) :
    ∀ evs : List Ev, runEvents sys evs = sys := by
  intro evs
  induction evs with
  | nil => rfl
  | cons e rest ih =>
    show runEvents (step sys e) rest = sys
    rw [step_of_wedged h e]
    exact ih

/-! ## C2 — completion failure and the single-flight lock -/

/-- C2: when the completion-service call fails (`reply = none`), the
exception propagates out of the background thread before the `_finish`
block is queued, so `self._chat_lock.release()` never runs: the lock stays
held, the history is untouched, and the resulting state is wedged — every
subsequent event, in particular every future chat initiation, leaves the
state unchanged forever.  This refutes the claim's required guarantee that
the lock is released on every exit path. -/
theorem completion_failure_keeps_lock_held (sys : Sys)
    (hk : sys.hasKey = true) (hl : sys.lockHeld = true)
    (hi : sys.inputBubble = false) (hp : sys.pendingRequest = true) :
    (step sys (Ev.completion none)).lockHeld = true ∧
    (step sys (Ev.completion none)).pendingRequest = false ∧
    (step sys (Ev.completion none)).history = sys.history ∧
    ∀ evs : List Ev,
      runEvents (step sys (Ev.completion none)) evs =
        step sys (Ev.completion none) := by
  have hstep : step sys (Ev.completion none) =
      { sys with pendingRequest := false } := by
    simp [step, hp, completion_returns]
  refine ⟨by rw [hstep]; exact hl, by rw [hstep], by rw [hstep], ?_⟩
  intro evs
  exact runEvents_of_wedged (by rw [hstep]; exact ⟨hk, hl, hi, rfl⟩) evs

/-- Witness for `completion_failure_keeps_lock_held`: the state during an
in-flight request (lock held, input bubble already closed). -/
theorem completion_failure_witness :
    ((⟨true, true, false, true, [], 0, 1⟩ : Sys).hasKey = true ∧
      (⟨true, true, false, true, [], 0, 1⟩ : Sys).lockHeld = true ∧
      (⟨true, true, false, true, [], 0, 1⟩ : Sys).inputBubble = false ∧
      (⟨true, true, false, true, [], 0, 1⟩ : Sys).pendingRequest = true) ∧
    ((step (⟨true, true, false, true, [], 0, 1⟩ : Sys)
        (Ev.completion none)).lockHeld = true ∧
      (step (⟨true, true, false, true, [], 0, 1⟩ : Sys)
        (Ev.completion none)).pendingRequest = false ∧
      (step (⟨true, true, false, true, [], 0, 1⟩ : Sys)
        (Ev.completion none)).history =
        (⟨true, true, false, true, [], 0, 1⟩ : Sys).history ∧
      ∀ evs : List Ev,
        runEvents (step (⟨true, true, false, true, [], 0, 1⟩ : Sys)
            (Ev.completion none)) evs =
          step (⟨true, true, false, true, [], 0, 1⟩ : Sys)
            (Ev.completion none)) :=
  ⟨⟨rfl, rfl, rfl, rfl⟩,
   completion_failure_keeps_lock_held ⟨true, true, false, true, [], 0, 1⟩
     rfl rfl rfl rfl⟩

/-! ## C9 — empty submit wedges the lock forever -/

/-- C9: when the Send action fires with text whose strip is empty, the
send callback is not invoked (no history append, no background thread),
the bubble closes and the owner's tracked reference is cleared, and the
lock acquired at initiation is never released: the state is wedged, so
every subsequent event — in particular every later chat initiation for the
rest of the process lifetime — is silently dropped and no further Input
bubble is ever created. -/
theorem empty_submit_wedges_lock (sys : Sys) (text : String)
    (hk : sys.hasKey = true) (hl : sys.lockHeld = true)
    (hi : sys.inputBubble = true) (hp : sys.pendingRequest = false)
    (ht : pyStripS text = "") :
    step sys (Ev.submit text) = { sys with inputBubble := false } ∧
    (step sys (Ev.submit text)).history = sys.history ∧
    (step sys (Ev.submit text)).pendingRequest = false ∧
    (step sys (Ev.submit text)).lockHeld = true ∧
    (∀ evs : List Ev,
      runEvents (step sys (Ev.submit text)) evs = step sys (Ev.submit text)) ∧
    ∀ evs : List Ev,
      (runEvents (step sys (Ev.submit text)) evs).inputCreated =
        sys.inputCreated := by
  have hstep : step sys (Ev.submit text) =
      { sys with inputBubble := false } := by
    simp [step, hi, send_fires, ht]
  have hwedge : Wedged (step sys (Ev.submit text)) := by
    rw [hstep]; exact ⟨hk, hl, rfl, hp⟩
  refine ⟨hstep, by rw [hstep], by rw [hstep]; exact hp,
    by rw [hstep]; exact hl, ?_, ?_⟩
  · exact runEvents_of_wedged hwedge
  · intro evs
    rw [runEvents_of_wedged hwedge evs, hstep]

/-- Witness for `empty_submit_wedges_lock`: an open input session and a
whitespace-only submission. -/
theorem empty_submit_witness :
    ((⟨true, true, true, false, [], 0, 1⟩ : Sys).hasKey = true ∧
      (⟨true, true, true, false, [], 0, 1⟩ : Sys).lockHeld = true ∧
      (⟨true, true, true, false, [], 0, 1⟩ : Sys).inputBubble = true ∧
      (⟨true, true, true, false, [], 0, 1⟩ : Sys).pendingRequest = false ∧
      pyStripS "   " = "") ∧
    (step (⟨true, true, true, false, [], 0, 1⟩ : Sys) (Ev.submit "   ") =
        { (⟨true, true, true, false, [], 0, 1⟩ : Sys) with
            inputBubble := false } ∧
      (step (⟨true, true, true, false, [], 0, 1⟩ : Sys)
        (Ev.submit "   ")).history =
        (⟨true, true, true, false, [], 0, 1⟩ : Sys).history ∧
      (step (⟨true, true, true, false, [], 0, 1⟩ : Sys)
        (Ev.submit "   ")).pendingRequest = false ∧
      (step (⟨true, true, true, false, [], 0, 1⟩ : Sys)
        (Ev.submit "   ")).lockHeld = true ∧
      (∀ evs : List Ev,
        runEvents (step (⟨true, true, true, false, [], 0, 1⟩ : Sys)
            (Ev.submit "   ")) evs =
          step (⟨true, true, true, false, [], 0, 1⟩ : Sys)
            (Ev.submit "   ")) ∧
      ∀ evs : List Ev,
        (runEvents (step (⟨true, true, true, false, [], 0, 1⟩ : Sys)
            (Ev.submit "   ")) evs).inputCreated =
          (⟨true, true, true, false, [], 0, 1⟩ : Sys).inputCreated) :=
  ⟨⟨rfl, rfl, rfl, rfl, by decide⟩,
   empty_submit_wedges_lock ⟨true, true, true, false, [], 0, 1⟩ "   "
     rfl rfl rfl rfl (by decide)⟩

end DogeGpt
